import Mathlib

/-!
# Verification of the babylon-js-windmill hexagonal grid and construction animator

This development embeds the two algorithmic fragments of the repository:

* the hexagonal grid utilities of `src/src/utils/hexGrid.ts`
  (`getHexPosition`, `hexDistance`, `getHexNeighbors`, `DEFAULT_HEX_COORDINATES`);
* the construct/deconstruct animation state machine driven by the C-key
  handler of `src/src/app.ts` (keyframes at lines 380–394, duration 60,
  visibility forcing at lines 473–483, stop-then-replay at lines 467–488).

Real-valued geometry is embedded over `ℝ`; the grid distance and the animation
scales, which the source computes with exact decimal constants, are embedded
over `ℚ`.
-/

namespace Windmill

/-- Embeds `getHexPosition` from `src/src/utils/hexGrid.ts` (lines 17–27):
`x = size * (sqrt(3)*q + sqrt(3)/2 * r)`, `y = height`, `z = size * (3/2 * r)`. -/
noncomputable def getHexPosition (q r size height : ℝ) : ℝ × ℝ × ℝ :=
  (size * (Real.sqrt 3 * q + Real.sqrt 3 / 2 * r), height, size * (3 / 2 * r))

/-- Embeds `hexDistance` from `src/src/utils/hexGrid.ts` (lines 67–76):
`(|q1-q2| + |q1+r1-q2-r2| + |r1-r2|) / 2`. -/
def hexDistance (q1 r1 q2 r2 : ℚ) : ℚ :=
  (|q1 - q2| + |q1 + r1 - q2 - r2| + |r1 - r2|) / 2

/-- Embeds `getHexNeighbors` from `src/src/utils/hexGrid.ts` (lines 84–96). -/
def getHexNeighbors (q r : ℤ) : List (ℤ × ℤ) :=
  [(q + 1, r), (q + 1, r - 1), (q, r - 1), (q - 1, r), (q - 1, r + 1), (q, r + 1)]

/-- Embeds `DEFAULT_HEX_COORDINATES` from `src/src/utils/hexGrid.ts` (lines 34–57). -/
def DEFAULT_HEX_COORDINATES : List (ℤ × ℤ) :=
  [(0, 0), (1, 0), (0, 1), (-1, 1), (-1, 0), (0, -1), (1, -1),
   (2, 0), (2, -1), (2, -2), (1, -2), (0, -2), (-1, -1), (-2, 0),
   (-2, 1), (-2, 2), (-1, 2), (0, 2), (1, 1)]

/-- Casting helper: `hexDistance` on integer inputs is the integer formula over `ℤ`,
cast to `ℚ`. -/
lemma hexDistance_intCast (q1 r1 q2 r2 : ℤ) :
    hexDistance (q1 : ℚ) (r1 : ℚ) (q2 : ℚ) (r2 : ℚ) =
      ((|q1 - q2| + |q1 + r1 - q2 - r2| + |r1 - r2| : ℤ) : ℚ) / 2 := by
  unfold hexDistance
  push_cast
  ring

/-- The integer numerator of the hex distance is always even. -/
lemma hexDistance_numerator_even (q1 r1 q2 r2 : ℤ) :
    (2 : ℤ) ∣ (|q1 - q2| + |q1 + r1 - q2 - r2| + |r1 - r2|) := by
  rcases abs_cases (q1 - q2) with ⟨h1, _⟩ | ⟨h1, _⟩ <;>
    rcases abs_cases (q1 + r1 - q2 - r2) with ⟨h2, _⟩ | ⟨h2, _⟩ <;>
      rcases abs_cases (r1 - r2) with ⟨h3, _⟩ | ⟨h3, _⟩ <;>
        omega

/-- C4. Hex position formula: `getHexPosition q r size height` is exactly
`(size * (sqrt 3 * q + sqrt 3 / 2 * r), height, size * (3/2 * r))`, and in
particular `getHexPosition 0 0 size h = (0, h, 0)` for any `size` and `h`. -/
theorem hexPosition_formula :
    (∀ q r size height : ℝ,
      getHexPosition q r size height =
        (size * (Real.sqrt 3 * q + Real.sqrt 3 / 2 * r), height, size * (3 / 2 * r))) ∧
    (∀ size h : ℝ, getHexPosition 0 0 size h = (0, h, 0)) := by
  refine ⟨fun q r size height => rfl, fun size h => ?_⟩
  unfold getHexPosition
  norm_num

/-- C5. Hex distance formula: `hexDistance` computes
`(|q1-q2| + |q1+r1-q2-r2| + |r1-r2|) / 2`; on integer inputs the result is an
integer; and the distance from any integer cell to itself is `0`. -/
theorem hexDistance_formula :
    (∀ q1 r1 q2 r2 : ℚ,
      hexDistance q1 r1 q2 r2 = (|q1 - q2| + |q1 + r1 - q2 - r2| + |r1 - r2|) / 2) ∧
    (∀ q1 r1 q2 r2 : ℤ, ∃ n : ℤ, hexDistance (q1 : ℚ) r1 q2 r2 = (n : ℚ)) ∧
    (∀ q r : ℤ, hexDistance (q : ℚ) r q r = 0) := by
  refine ⟨fun _ _ _ _ => rfl, fun q1 r1 q2 r2 => ?_, fun q r => ?_⟩
  · obtain ⟨n, hn⟩ := hexDistance_numerator_even q1 r1 q2 r2
    refine ⟨n, ?_⟩
    rw [hexDistance_intCast, hn]
    push_cast
    ring
  · unfold hexDistance
    simp

/-- C9. Hex distance is symmetric in its two cells. -/
theorem hexDistance_symm (q1 r1 q2 r2 : ℚ) :
    hexDistance q1 r1 q2 r2 = hexDistance q2 r2 q1 r1 := by
  unfold hexDistance
  rw [abs_sub_comm q1 q2, abs_sub_comm r1 r2,
    show q1 + r1 - q2 - r2 = -(q2 + r2 - q1 - r1) by ring, abs_neg]

/-- C6. Neighbors contract: `getHexNeighbors q r` is exactly the ordered list
E, NE, NW, W, SW, SE; it has six pairwise-distinct entries; and every entry is
at `hexDistance` 1 from `(q, r)`. -/
theorem hexNeighbors_spec (q r : ℤ) :
    getHexNeighbors q r =
      [(q + 1, r), (q + 1, r - 1), (q, r - 1), (q - 1, r), (q - 1, r + 1), (q, r + 1)] ∧
    (getHexNeighbors q r).length = 6 ∧
    (getHexNeighbors q r).Nodup ∧
    ∀ c ∈ getHexNeighbors q r, hexDistance (q : ℚ) r (c.1 : ℚ) (c.2 : ℚ) = 1 := by
  refine ⟨rfl, rfl, ?_, ?_⟩
  · simp [getHexNeighbors, Prod.ext_iff]
    omega
  · intro c hc
    simp only [getHexNeighbors, List.mem_cons, List.not_mem_nil, or_false] at hc
    rcases hc with h | h | h | h | h | h <;> subst h <;>
      unfold hexDistance <;> push_cast <;> ring_nf <;>
        norm_num [abs_of_nonpos, abs_of_nonneg]

/-- C6 witness: the east neighbor of `(3, 5)` is listed and lies at distance 1. -/
theorem hexNeighbors_spec_witness :
    ((4, 5) : ℤ × ℤ) ∈ getHexNeighbors 3 5 ∧
      hexDistance ((3 : ℤ) : ℚ) ((5 : ℤ) : ℚ) ((4 : ℤ) : ℚ) ((5 : ℤ) : ℚ) = 1 :=
  ⟨by decide, (hexNeighbors_spec 3 5).2.2.2 (4, 5) (by decide)⟩

/-- C10. The default island: 19 pairwise-distinct coordinates, containing the
center `(0, 0)`, all within `hexDistance` 2 of the center. -/
theorem default_coordinates_spec :
    DEFAULT_HEX_COORDINATES.length = 19 ∧
    DEFAULT_HEX_COORDINATES.Nodup ∧
    ((0, 0) : ℤ × ℤ) ∈ DEFAULT_HEX_COORDINATES ∧
    ∀ c ∈ DEFAULT_HEX_COORDINATES, hexDistance 0 0 (c.1 : ℚ) (c.2 : ℚ) ≤ 2 := by
  refine ⟨rfl, by decide, by decide, ?_⟩
  intro c hc
  fin_cases hc <;>
    norm_num [hexDistance, abs_of_nonpos, abs_of_nonneg]

/-- C10 witness: the outer-ring tile `(2, -2)` is a default coordinate at
distance at most 2 from the center. -/
theorem default_coordinates_spec_witness :
    ((2, -2) : ℤ × ℤ) ∈ DEFAULT_HEX_COORDINATES ∧
      hexDistance 0 0 (((2 : ℤ), (-2 : ℤ)).1 : ℚ) (((2 : ℤ), (-2 : ℤ)).2 : ℚ) ≤ 2 := by
  refine ⟨by decide, default_coordinates_spec.2.2.2 (2, -2) (by decide)⟩

/-- Modelled from the spec: the animation direction of the construction
state machine (§4.2); the repository has no animator class — its C-key handler
in `src/src/app.ts` delegates per-frame evaluation to the external engine. -/
inductive Direction where
  | constructing
  | deconstructing
deriving DecidableEq

/-- Modelled from the spec: the `ConstructionState` enumeration
{Constructed, Deconstructed, Animating(direction, elapsedFrames)} (§3). -/
inductive ConstructionState where
  | constructed
  | deconstructed
  | animating (dir : Direction) (elapsed : ℕ)
deriving DecidableEq

/-- An animatable object: a handle with a mutable scale vector and a numeric
visibility, as the source writes `mesh.scaling` (a Vector3) and
`mesh.visibility = 1` (`src/src/app.ts` lines 371–372, 473–483). -/
structure AnimObj where
  scaling : ℚ × ℚ × ℚ
  visibility : ℚ
deriving DecidableEq

/-- Modelled from the spec: a `ConstructionAnimator` owning one state, a fixed
object set, and a completion-callback invocation count (§4.2); the source keeps
the corresponding data in the closure of `createScene` (`isConstructed`,
`windmillMeshes`, `animationDuration` at `src/src/app.ts` lines 362–367). -/
structure Animator where
  duration : ℕ
  state : ConstructionState
  objects : List AnimObj
  callbackCount : ℕ
deriving DecidableEq

/-- Start keyframe value per direction: the construct animation starts at scale
0.001 and the deconstruct animation at scale 1
(`src/src/app.ts` lines 380–383 and 391–394). -/
def startScale : Direction → ℚ
  | .constructing => 1 / 1000
  | .deconstructing => 1

/-- End keyframe value per direction: the construct animation ends at scale 1
and the deconstruct animation at scale 0.001
(`src/src/app.ts` lines 380–383 and 391–394). -/
def endScale : Direction → ℚ
  | .constructing => 1
  | .deconstructing => 1 / 1000

/-- Linear interpolation between two values. -/
def lerp (a b t : ℚ) : ℚ := a + (b - a) * t

/-- Modelled from the spec: the per-frame scale value — linear interpolation
between the direction's keyframes at parameter `elapsed/duration` clamped to
[0,1] (§4.2 "Per-frame interpolation"); the evaluator itself lives in the
external engine's `AnimationGroup`, not in this repository. -/
def scaleAt (dir : Direction) (e d : ℕ) : ℚ :=
  lerp (startScale dir) (endScale dir) (if d ≤ e then 1 else (e : ℚ) / (d : ℚ))

/-- Overwrite an object's scale uniformly on all three axes, as the animation
writes the `scaling` Vector3 property. -/
def applyScale (s : ℚ) (o : AnimObj) : AnimObj :=
  { o with scaling := (s, s, s) }

/-- Modelled from the spec: starting a timeline resets each object to the
direction's start keyframe and forces visibility to 1 (§4.2; visibility forcing
at `src/src/app.ts` lines 473–474 and 481–483). -/
def startObj (dir : Direction) (o : AnimObj) : AnimObj :=
  { o with scaling := (startScale dir, startScale dir, startScale dir), visibility := 1 }

/-- The settled state reached when an animation in the given direction
completes. -/
def settledOf : Direction → ConstructionState
  | .constructing => .constructed
  | .deconstructing => .deconstructed

/-- Modelled from the spec: `construct()` — a no-op when already `Constructed`;
otherwise stop whatever plays and restart the construct timeline from
elapsed=0 at its start keyframe (§4.2; stop-then-replay at `src/src/app.ts`
lines 467–488). -/
def Animator.construct (a : Animator) : Animator :=
  match a.state with
  | .constructed => a
  | _ => { a with state := .animating .constructing 0,
                  objects := a.objects.map (startObj .constructing) }

/-- Modelled from the spec: `deconstruct()`, symmetric to `construct()` (§4.2). -/
def Animator.deconstruct (a : Animator) : Animator :=
  match a.state with
  | .deconstructed => a
  | _ => { a with state := .animating .deconstructing 0,
                  objects := a.objects.map (startObj .deconstructing) }

/-- Modelled from the spec: `tick()` — advance `elapsed` by one frame while
`Animating`; on reaching `duration`, apply the final keyframe to every object,
enter the settled state of the direction just completed, and invoke the
completion callback exactly once (§4.2). -/
def Animator.tick (a : Animator) : Animator :=
  match a.state with
  | .animating dir e =>
    if a.duration ≤ e + 1 then
      { a with state := settledOf dir,
               objects := a.objects.map (applyScale (endScale dir)),
               callbackCount := a.callbackCount + 1 }
    else
      { a with state := .animating dir (e + 1),
               objects := a.objects.map (applyScale (scaleAt dir (e + 1) a.duration)) }
  | _ => a

/-- Modelled from the spec: `toggle()` — deconstruct from `Constructed`,
construct from `Deconstructed`, and switch to the opposite direction while
`Animating` (§4.2; the source's C-key handler toggles `isConstructed` at
`src/src/app.ts` lines 471–488). -/
def Animator.toggle (a : Animator) : Animator :=
  match a.state with
  | .constructed => a.deconstruct
  | .deconstructed => a.construct
  | .animating .constructing _ => a.deconstruct
  | .animating .deconstructing _ => a.construct

/-- Modelled from the spec: `reset()` — force `Constructed`, full scale and
visibility, no animation and no callback (§4.2). -/
def Animator.reset (a : Animator) : Animator :=
  { a with state := .constructed,
           objects := a.objects.map (fun o => { o with scaling := (1, 1, 1), visibility := 1 }) }

/-- Modelled from the spec: the one configuration error of the animator,
`InvalidDuration` (§7); the source has no such check — its duration is the
constant 60 (`src/src/app.ts` line 364). -/
inductive AnimError where
  | invalidDuration
deriving DecidableEq

/-- Modelled from the spec: constructing an animator validates that `duration`
is positive and otherwise starts `Constructed` with no callbacks recorded
(§7; initial state at `src/src/app.ts` lines 362–364). -/
def mkAnimator (d : ℤ) (objs : List AnimObj) : Except AnimError Animator :=
  if d ≤ 0 then .error .invalidDuration
  else .ok { duration := d.toNat, state := .constructed, objects := objs, callbackCount := 0 }

/-- The operations of the animator. -/
inductive Op where
  | construct
  | deconstruct
  | toggle
  | tick
  | reset

/-- Modelled from the spec: every operation after construction is total — no
operation raises an error for any input in any state (§4.2 "Failure
semantics", §7). -/
def runOp : Op → Animator → Except AnimError Animator
  | .construct, a => .ok a.construct
  | .deconstruct, a => .ok a.deconstruct
  | .toggle, a => .ok a.toggle
  | .tick, a => .ok a.tick
  | .reset, a => .ok a.reset

/-- Re-scaling after any earlier re-scaling overwrites it. -/
lemma applyScale_applyScale (s s' : ℚ) (o : AnimObj) :
    applyScale s (applyScale s' o) = applyScale s o := rfl

/-- Re-scaling a list twice keeps only the last scale. -/
lemma map_applyScale_map (s s' : ℚ) (l : List AnimObj) :
    (l.map (applyScale s')).map (applyScale s) = l.map (applyScale s) := by
  rw [List.map_map]
  congr 1

/-- Running `tick` until the timeline completes settles the state, applies the
final keyframe to every object, and bumps the callback count once. -/
lemma tick_complete : ∀ (n : ℕ) (a : Animator) (dir : Direction) (e : ℕ),
    a.state = .animating dir e → e + n = a.duration → 0 < n →
    Animator.tick^[n] a =
      { a with state := settledOf dir,
               objects := a.objects.map (applyScale (endScale dir)),
               callbackCount := a.callbackCount + 1 } := by
  intro n
  induction n with
  | zero => intro a dir e _ _ hn; omega
  | succ n ih =>
    intro a dir e h hd _
    obtain ⟨d, s, objs, cb⟩ := a
    have hs : s = ConstructionState.animating dir e := h
    subst hs
    have hd' : e + (n + 1) = d := hd
    rcases Nat.eq_zero_or_pos n with hn | hn
    · subst hn
      rw [Function.iterate_succ_apply, Function.iterate_zero_apply]
      simp only [Animator.tick]
      rw [if_pos (by omega)]
    · rw [Function.iterate_succ_apply]
      have hstep : Animator.tick ⟨d, .animating dir e, objs, cb⟩ =
          ⟨d, .animating dir (e + 1), objs.map (applyScale (scaleAt dir (e + 1) d)), cb⟩ := by
        simp only [Animator.tick]
        rw [if_neg (by omega)]
      rw [hstep, ih _ dir (e + 1) rfl (show e + 1 + n = d by omega) hn]
      simp [map_applyScale_map, applyScale_applyScale, List.map_map, Function.comp]

/-- Running `tick` strictly inside the timeline advances `elapsed` and applies
the interpolated scale for the frame reached. -/
lemma tick_progress : ∀ (n : ℕ) (a : Animator) (dir : Direction) (e : ℕ),
    a.state = .animating dir e → e + n < a.duration → 0 < n →
    Animator.tick^[n] a =
      { a with state := .animating dir (e + n),
               objects := a.objects.map (applyScale (scaleAt dir (e + n) a.duration)) } := by
  intro n
  induction n with
  | zero => intro a dir e _ _ hn; omega
  | succ n ih =>
    intro a dir e h hd _
    obtain ⟨d, s, objs, cb⟩ := a
    have hs : s = ConstructionState.animating dir e := h
    subst hs
    have hd' : e + (n + 1) < d := hd
    have hstep : Animator.tick ⟨d, .animating dir e, objs, cb⟩ =
        ⟨d, .animating dir (e + 1), objs.map (applyScale (scaleAt dir (e + 1) d)), cb⟩ := by
      simp only [Animator.tick]
      rw [if_neg (by omega)]
    rcases Nat.eq_zero_or_pos n with hn | hn
    · subst hn
      rw [Function.iterate_succ_apply, Function.iterate_zero_apply, hstep]
    · rw [Function.iterate_succ_apply, hstep,
        ih _ dir (e + 1) rfl (show e + 1 + n < d by omega) hn,
        show e + 1 + n = e + (n + 1) from by omega]
      simp only [map_applyScale_map]

/-- Sample deconstructed animator with a short timeline, used for witnesses. -/
def sampleDecon : Animator :=
  ⟨2, .deconstructed, [⟨(1 / 1000, 1 / 1000, 1 / 1000), 1⟩], 0⟩

/-- Sample animator caught mid-construction, used for witnesses. -/
def sampleMid : Animator :=
  ⟨60, .animating .constructing 17, [⟨(1 / 2, 1 / 2, 1 / 2), 1⟩], 0⟩

/-- Sample constructed animator with the source's duration of 60 frames. -/
def sampleCon : Animator :=
  ⟨60, .constructed, [⟨(1, 1, 1), 1⟩], 0⟩

/-- C1. Construct round trip: from a settled `Deconstructed` state, after
`construct()` and exactly `duration` ticks, every object's scale is (1,1,1),
the state is `Constructed`, and the completion callback has fired exactly once
for the completed run. -/
theorem construct_round_trip (a : Animator) (h : a.state = .deconstructed)
    (hd : 0 < a.duration) :
    (∀ o ∈ (Animator.tick^[a.duration] a.construct).objects, o.scaling = (1, 1, 1)) ∧
    (Animator.tick^[a.duration] a.construct).state = .constructed ∧
    (Animator.tick^[a.duration] a.construct).callbackCount = a.callbackCount + 1 := by
  obtain ⟨d, s, objs, cb⟩ := a
  have hs : s = ConstructionState.deconstructed := h
  subst hs
  have hd' : 0 < d := hd
  have hcon : Animator.construct ⟨d, .deconstructed, objs, cb⟩ =
      ⟨d, .animating .constructing 0, objs.map (startObj .constructing), cb⟩ := rfl
  have hrun := tick_complete d ⟨d, .animating .constructing 0,
      objs.map (startObj .constructing), cb⟩ .constructing 0 rfl (show 0 + d = d by omega) hd'
  show (∀ o ∈ (Animator.tick^[d] (Animator.construct ⟨d, .deconstructed, objs, cb⟩)).objects,
        o.scaling = (1, 1, 1)) ∧ _ ∧ _
  rw [hcon, hrun]
  refine ⟨?_, rfl, rfl⟩
  intro o ho
  rcases List.mem_map.mp ho with ⟨x, hx, rfl⟩
  rfl

/-- C1 witness: a concrete deconstructed animator with duration 2 round-trips
to `Constructed`, scale (1,1,1) and one callback invocation. -/
theorem construct_round_trip_witness :
    (sampleDecon.state = .deconstructed ∧ 0 < sampleDecon.duration) ∧
    ((∀ o ∈ (Animator.tick^[sampleDecon.duration] sampleDecon.construct).objects,
        o.scaling = (1, 1, 1)) ∧
      (Animator.tick^[sampleDecon.duration] sampleDecon.construct).state = .constructed ∧
      (Animator.tick^[sampleDecon.duration] sampleDecon.construct).callbackCount =
        sampleDecon.callbackCount + 1) :=
  ⟨⟨rfl, by decide⟩, construct_round_trip sampleDecon rfl (by decide)⟩

/-- C2. Interruption: calling `deconstruct()` while `Animating{Constructing, e}`
restarts the timeline in the deconstruct direction from elapsed 0, with every
object reset to the deconstruct start keyframe (scale 1 on all axes, visible) —
no blending from the current scale. -/
theorem deconstruct_interrupt (a : Animator) (e : ℕ)
    (h : a.state = .animating .constructing e) (he : e < a.duration) :
    (a.deconstruct).state = .animating .deconstructing 0 ∧
    ∀ o ∈ (a.deconstruct).objects, o.scaling = (1, 1, 1) ∧ o.visibility = 1 := by
  obtain ⟨d, s, objs, cb⟩ := a
  have hs : s = ConstructionState.animating .constructing e := h
  subst hs
  refine ⟨rfl, ?_⟩
  intro o ho
  rcases List.mem_map.mp ho with ⟨x, hx, rfl⟩
  exact ⟨rfl, rfl⟩

/-- C2 witness: interrupting a concrete construction at elapsed 17 of 60. -/
theorem deconstruct_interrupt_witness :
    (sampleMid.state = .animating .constructing 17 ∧ 17 < sampleMid.duration) ∧
    ((sampleMid.deconstruct).state = .animating .deconstructing 0 ∧
      ∀ o ∈ (sampleMid.deconstruct).objects, o.scaling = (1, 1, 1) ∧ o.visibility = 1) :=
  ⟨⟨rfl, by decide⟩, deconstruct_interrupt sampleMid 17 rfl (by decide)⟩

/-- C3 (amended). Deconstruct midpoint: with duration 60, after `deconstruct()`
and 30 ticks every per-axis scale equals 1001/2000 = 0.5005, which is the
linear interpolation from 1 to 0.001 at parameter 30/60 — not the spec's
stated 1 - 0.4995*(30/60) ≈ 0.7503. -/
theorem deconstruct_midpoint (a : Animator) (h : a.state = .constructed)
    (hd : a.duration = 60) :
    (∀ o ∈ (Animator.tick^[30] a.deconstruct).objects,
        o.scaling = (1001 / 2000, 1001 / 2000, 1001 / 2000)) ∧
    (1001 / 2000 : ℚ) = lerp 1 (1 / 1000) (30 / 60) := by
  constructor
  · obtain ⟨d, s, objs, cb⟩ := a
    have hs : s = ConstructionState.constructed := h
    subst hs
    have hd' : d = 60 := hd
    subst hd'
    have hdec : Animator.deconstruct ⟨60, .constructed, objs, cb⟩ =
        ⟨60, .animating .deconstructing 0, objs.map (startObj .deconstructing), cb⟩ := rfl
    show ∀ o ∈ (Animator.tick^[30] (Animator.deconstruct ⟨60, .constructed, objs, cb⟩)).objects,
        o.scaling = (1001 / 2000, 1001 / 2000, 1001 / 2000)
    rw [hdec, tick_progress 30 _ .deconstructing 0 rfl (by norm_num) (by norm_num)]
    intro o ho
    rcases List.mem_map.mp ho with ⟨x, hx, rfl⟩
    have hsc : scaleAt .deconstructing (0 + 30) 60 = 1001 / 2000 := by
      unfold scaleAt lerp startScale endScale
      rw [if_neg (by norm_num)]
      norm_num
    simp [applyScale, hsc]
  · unfold lerp
    norm_num

/-- C3 counterexample: on the concrete duration-60 animator the per-axis scale
after `deconstruct()` and 30 ticks is 1001/2000 = 0.5005, which differs from
the claimed value 1 - 0.4995*(30/60) = 0.75025. -/
theorem deconstruct_midpoint_counterexample :
    (Animator.tick^[30] sampleCon.deconstruct).objects.map AnimObj.scaling =
      [(1001 / 2000, 1001 / 2000, 1001 / 2000)] ∧
    (1001 / 2000 : ℚ) ≠ 1 - (4995 / 10000) * (30 / 60) := by
  constructor
  · have hdec : sampleCon.deconstruct =
        ⟨60, .animating .deconstructing 0,
          [(⟨(1, 1, 1), 1⟩ : AnimObj)].map (startObj .deconstructing), 0⟩ := rfl
    rw [hdec, tick_progress 30 _ .deconstructing 0 rfl (by norm_num) (by norm_num)]
    have hsc : scaleAt .deconstructing (0 + 30) 60 = 1001 / 2000 := by
      unfold scaleAt lerp startScale endScale
      rw [if_neg (by norm_num)]
      norm_num
    simp [applyScale, startObj, hsc]
  · norm_num

/-- C3 witness: the concrete duration-60 animator reaches per-axis scale
1001/2000 after `deconstruct()` and 30 ticks. -/
theorem deconstruct_midpoint_witness :
    (sampleCon.state = .constructed ∧ sampleCon.duration = 60) ∧
    ((∀ o ∈ (Animator.tick^[30] sampleCon.deconstruct).objects,
        o.scaling = (1001 / 2000, 1001 / 2000, 1001 / 2000)) ∧
      (1001 / 2000 : ℚ) = lerp 1 (1 / 1000) (30 / 60)) :=
  ⟨⟨rfl, rfl⟩, deconstruct_midpoint sampleCon rfl rfl⟩

/-- C7. Idempotence: any number of `construct()` calls on a `Constructed`
animator leaves it unchanged and never fires the callback. -/
theorem construct_idempotent (a : Animator) (n : ℕ) (h : a.state = .constructed) :
    Animator.construct^[n] a = a ∧
    (Animator.construct^[n] a).callbackCount = a.callbackCount := by
  have hfix : a.construct = a := by
    obtain ⟨d, s, objs, cb⟩ := a
    have hs : s = ConstructionState.constructed := h
    subst hs
    rfl
  have hiter : Animator.construct^[n] a = a := Function.iterate_fixed hfix n
  exact ⟨hiter, by rw [hiter]⟩

/-- C7 witness: three repeated `construct()` calls on a concrete constructed
animator change nothing. -/
theorem construct_idempotent_witness :
    sampleCon.state = .constructed ∧
    (Animator.construct^[3] sampleCon = sampleCon ∧
      (Animator.construct^[3] sampleCon).callbackCount = sampleCon.callbackCount) :=
  ⟨rfl, construct_idempotent sampleCon 3 rfl⟩

/-- C8. Duration validation: `mkAnimator` rejects non-positive durations with
`invalidDuration`, accepts positive durations, and no other operation of the
component returns an error for any animator in any state. -/
theorem duration_validation :
    (∀ (d : ℤ) (objs : List AnimObj), d ≤ 0 → mkAnimator d objs = .error .invalidDuration) ∧
    (∀ (d : ℤ) (objs : List AnimObj), 0 < d →
      mkAnimator d objs =
        .ok { duration := d.toNat, state := .constructed, objects := objs, callbackCount := 0 }) ∧
    (∀ (op : Op) (a : Animator), ∃ b : Animator, runOp op a = .ok b) := by
  refine ⟨fun d objs hd => ?_, fun d objs hd => ?_, fun op a => ?_⟩
  · unfold mkAnimator
    rw [if_pos hd]
  · unfold mkAnimator
    rw [if_neg (by omega)]
  · cases op <;> exact ⟨_, rfl⟩

/-- C8 witness: duration -5 is rejected, duration 60 is accepted, and `tick`
returns a value on a concrete animator. -/
theorem duration_validation_witness :
    ((-5 : ℤ) ≤ 0 ∧ mkAnimator (-5) [] = .error .invalidDuration) ∧
    ((0 : ℤ) < 60 ∧ mkAnimator 60 [] =
      .ok { duration := (60 : ℤ).toNat, state := .constructed, objects := [], callbackCount := 0 }) ∧
    (∃ b : Animator, runOp .tick sampleCon = .ok b) :=
  ⟨⟨by decide, duration_validation.1 (-5) [] (by decide)⟩,
   ⟨by decide, duration_validation.2.1 60 [] (by decide)⟩,
   duration_validation.2.2 .tick sampleCon⟩

end Windmill
